import Mathlib

/-!
Verification of the B2B-Lead enrichment-and-scoring pipeline
(`lead_enricher.py`, `scoring_engine.py`).

The Python code is shallowly embedded: every random draw the source makes
(`random.uniform`, `random.choices`, `random.choice`, `random.randint`) is
passed in explicitly — uniform draws as a parameter `t ∈ [0,1]` scaled into
the requested interval, weighted categorical draws as a percentile
`p ∈ [0,1)` resolved against the cumulative weights (the semantics of
`random.choices`), and `random.choice` / `random.randint` as an index
mapped into the candidate range. Python floats are modelled as rationals;
`str.lower` is modelled on ASCII, which covers every vocabulary string the
code matches against.
-/

namespace B2BLead

/-- ASCII lowercasing of one character, modelling `str.lower` on the
ASCII range (all pattern vocabularies in the source are ASCII). -/
def lowChar (c : Char) : Char :=
  if 65 ≤ c.toNat ∧ c.toNat ≤ 90 then Char.ofNat (c.toNat + 32) else c

/-- Model of Python `s.lower()` (ASCII range). -/
def lowerStr (s : String) : String :=
  ⟨s.data.map lowChar⟩

/-- Helper: `charsStart pat l` holds when `pat` is an initial segment of `l`. -/
def charsStart : List Char → List Char → Bool
  | [], _ => true
  | _ :: _, [] => false
  | a :: as, b :: bs => a == b && charsStart as bs

/-- Helper: `charsOccur pat l`: `pat` occurs contiguously somewhere in `l`;
model of Python `pat in s` on the character lists. -/
def charsOccur (pat : List Char) : List Char → Bool
  | [] => pat.isEmpty
  | b :: bs => charsStart pat (b :: bs) || charsOccur pat bs

/-- Model of Python `pat in hay` (substring containment). -/
def strOccurs (pat hay : String) : Bool :=
  charsOccur pat.data hay.data

/-- Model of `any(pat in hay for pat in pats)`. -/
def strOccursAny (pats : List String) (hay : String) : Bool :=
  pats.any (fun pat => strOccurs pat hay)

/-! ## LeadEnricher (`lead_enricher.py`) -/

namespace LeadEnricher

/-- Source `self.job_titles`: title pools per job category (constructor dict).
The classifier only ever returns the five listed keys, so the dict lookup
`self.job_titles[job_category]` is total on reachable inputs; the final
branch is the `other` pool. -/
def job_titles (cat : String) : List String :=
  if cat = "technical" then
    ["Software Engineer", "Senior Software Engineer", "Lead Developer",
     "Full Stack Developer", "Frontend Developer", "Backend Developer",
     "DevOps Engineer", "Site Reliability Engineer", "Data Engineer",
     "Machine Learning Engineer", "AI Engineer", "Cloud Architect"]
  else if cat = "management" then
    ["Engineering Manager", "Technical Lead", "Team Lead",
     "Principal Engineer", "Staff Engineer", "Senior Technical Lead"]
  else if cat = "executive" then
    ["CTO", "VP Engineering", "Head of Engineering", "Director of Technology",
     "Chief Technology Officer", "VP of Product", "Head of IT"]
  else if cat = "decision_maker" then
    ["CEO", "Founder", "Co-Founder", "President", "VP Sales",
     "Chief Executive Officer", "Managing Director"]
  else
    ["Product Manager", "Project Manager", "Business Analyst",
     "Technical Writer", "QA Engineer", "Sales Engineer"]

/-- Source `self.tech_stacks`: the fixed catalog of 12 stack strings. -/
def tech_stacks : List String :=
  ["React, Node.js, MongoDB", "Python, Django, PostgreSQL",
   "Java, Spring Boot, MySQL", "Vue.js, Express, Redis",
   "Angular, .NET, SQL Server", "Ruby on Rails, PostgreSQL",
   "PHP, Laravel, MySQL", "Go, Kubernetes, Docker",
   "Scala, Spark, Cassandra", "Swift, iOS, Firebase",
   "Kotlin, Android, SQLite", "TypeScript, Next.js, Prisma"]

/-- Source `self.company_sizes`. -/
def company_sizes : List String :=
  ["Startup", "Small", "Medium", "Large", "Enterprise"]

/-- Source `_determine_job_category(email, name)`: ordered cascade of
case-insensitive substring rules; the fallback is
`random.choices(categories, weights=[0.4,0.25,0.15,0.1,0.1])`, resolved
here by the percentile `p` against the cumulative weights
0.4, 0.65, 0.8, 0.9, 1.0. -/
def _determine_job_category (email name : String) (p : ℚ) : String :=
  let email_lower := lowerStr email
  let name_lower := lowerStr name
  if strOccursAny ["ceo", "founder", "president", "exec"] email_lower then
    "decision_maker"
  else if strOccursAny ["cto", "vp", "head", "director"] email_lower then
    "executive"
  else if strOccursAny ["dev", "engineer", "tech", "code"] email_lower then
    "technical"
  else if strOccursAny ["manager", "lead", "principal"] email_lower then
    "management"
  else if strOccursAny ["dr", "prof", "phd"] name_lower then
    "technical"
  else if p < 0.4 then "technical"
  else if p < 0.65 then "management"
  else if p < 0.8 then "executive"
  else if p < 0.9 then "decision_maker"
  else "other"

/-- Source `_determine_seniority(job_title, email)`: cascade over the lowercased
title; the email argument is received but never used by the conditions
(as in the source). The fallback choice between `Mid-level` and `Senior`
is resolved by the parity of `coin`. -/
def _determine_seniority (job_title email : String) (coin : Nat) : String :=
  let title_lower := lowerStr job_title
  let _email_lower := lowerStr email
  if strOccursAny ["ceo", "cto", "vp", "head", "director", "chief"] title_lower then
    "Executive"
  else if strOccursAny ["senior", "lead", "principal", "staff", "manager"] title_lower then
    "Senior"
  else if strOccursAny ["junior", "associate", "intern"] title_lower then
    "Junior"
  else if coin % 2 = 0 then "Mid-level" else "Senior"

/-- Characters kept by the substitution removing `[^a-zA-Z\s]`: ASCII letters
and whitespace (space, tab, newline, carriage return, vertical tab,
form feed). -/
def keepChar (c : Char) : Bool :=
  (65 ≤ c.toNat && c.toNat ≤ 90) || (97 ≤ c.toNat && c.toNat ≤ 122) ||
  c == ' ' || c == '\t' || c == '\n' || c == '\r' || c == '\x0b' || c == '\x0c'

/-- Source `_generate_linkedin_url(name)`: strip non-letter non-whitespace
characters, lowercase, then `str.replace(' ', '-')` — which substitutes
every space character individually. -/
def _generate_linkedin_url (name : String) : String :=
  let clean_name : List Char := name.data.filter keepChar
  let url_name : List Char :=
    (clean_name.map lowChar).map (fun c => if c = ' ' then '-' else c)
  "https://linkedin.com/in/" ++ ⟨url_name⟩

/-- Source `_determine_company_size(domain)`: well-known fragments force
`Enterprise`; otherwise `random.choices(company_sizes,
weights=[0.2,0.3,0.3,0.15,0.05])`, resolved by percentile `p` against
the cumulative weights 0.2, 0.5, 0.8, 0.95, 1.0. -/
def _determine_company_size (domain : String) (p : ℚ) : String :=
  if strOccursAny ["google", "microsoft", "apple", "amazon", "facebook", "netflix"]
      (lowerStr domain) then
    "Enterprise"
  else if p < 0.2 then "Startup"
  else if p < 0.5 then "Small"
  else if p < 0.8 then "Medium"
  else if p < 0.95 then "Large"
  else "Enterprise"

/-- Source `_generate_phone_number()`: the three `random.randint` draws are
passed as naturals mapped into the documented ranges. -/
def _generate_phone_number (a e n : Nat) : String :=
  let area_code := 200 + a % 800
  let exchange := 200 + e % 800
  let number := 1000 + n % 9000
  "+1 (" ++ toString area_code ++ ") " ++ toString exchange ++ "-" ++ toString number

/-- The per-row random draws consumed by `_enrich_single_lead`, in the
order the source makes them. -/
structure EnrichDraws where
  pCat : ℚ
  titleIdx : Nat
  coin : Nat
  techIdx : Nat
  pSize : ℚ
  phoneA : Nat
  phoneE : Nat
  phoneN : Nat

/-- The enriched-lead record returned by `_enrich_single_lead`. -/
structure EnrichedLead where
  name : String
  email : String
  company_domain : String
  job_title : String
  seniority_level : String
  linkedin_url : String
  tech_stack : String
  company_size : String
  phone : String
  job_category : String
deriving DecidableEq, Repr

/-- The error raised when a required field is absent from a row: models
the `KeyError` that `lead[field]` raises on a pandas row missing that
label (the `MissingFieldError(field_name)` of the spec). -/
structure MissingFieldError where
  field : String
deriving DecidableEq, Repr

/-- A raw input row: a finite label-to-value map, modelling the pandas
row indexed by column label. -/
def Row := List (String × String)

/-- Source `lead[key]` on a row: the value when the label is present, otherwise
the raised `MissingFieldError` (Python `KeyError`) naming the field. -/
def getField (row : Row) (key : String) : Except MissingFieldError String :=
  match List.lookup key row with
  | some v => .ok v
  | none => .error ⟨key⟩

/-- Source `_enrich_single_lead(lead)`: reads `name`, `email`, `company_domain`
in source order (each read can raise), then synthesizes the derived
attributes. `random.choice` on a pool is resolved by indexing with the
draw modulo the pool length. -/
def _enrich_single_lead (lead : Row) (d : EnrichDraws) :
    Except MissingFieldError EnrichedLead :=
  match getField lead "name" with
  | .error e => .error e
  | .ok name =>
  match getField lead "email" with
  | .error e => .error e
  | .ok email =>
  match getField lead "company_domain" with
  | .error e => .error e
  | .ok company_domain =>
    let job_category := _determine_job_category email name d.pCat
    let pool := job_titles job_category
    let job_title := (pool.get? (d.titleIdx % pool.length)).getD ""
    let seniority := _determine_seniority job_title email d.coin
    let linkedin_url := _generate_linkedin_url name
    let tech_stack := (tech_stacks.get? (d.techIdx % tech_stacks.length)).getD ""
    let company_size := _determine_company_size company_domain d.pSize
    let phone := _generate_phone_number d.phoneA d.phoneE d.phoneN
    .ok { name := name, email := email, company_domain := company_domain,
          job_title := job_title, seniority_level := seniority,
          linkedin_url := linkedin_url, tech_stack := tech_stack,
          company_size := company_size, phone := phone,
          job_category := job_category }

/-- Source `enrich_leads(df)`: row-wise enrichment accumulating the outputs; an
exception on any row propagates and aborts the whole call (the Python
`for` loop body is not wrapped in any handler). -/
def enrich_leads : List (Row × EnrichDraws) →
    Except MissingFieldError (List EnrichedLead)
  | [] => .ok []
  | (row, d) :: rest =>
    match _enrich_single_lead row d with
    | .error e => .error e
    | .ok l =>
      match enrich_leads rest with
      | .error e => .error e
      | .ok ls => .ok (l :: ls)

/-- A row has all three required fields readable. -/
def hasRequired (row : Row) : Bool :=
  (List.lookup "name" row).isSome && (List.lookup "email" row).isSome &&
  (List.lookup "company_domain" row).isSome

end LeadEnricher

/-! ## ScoringEngine (`scoring_engine.py`) -/

namespace ScoringEngine

open LeadEnricher

/-- Source `self.weights`: the scoring-weight state. The constructor and every
caller populate exactly the keys `job_title`, `tech_stack`,
`buying_intent`, so the state is modelled as this record. -/
structure ScoringWeights where
  job_title : ℚ
  tech_stack : ℚ
  buying_intent : ℚ
deriving DecidableEq, Repr

/-- Default weights set by the constructor. -/
def default_weights : ScoringWeights :=
  { job_title := 0.4, tech_stack := 0.3, buying_intent := 0.3 }

/-- Source `self.job_title_scores`: the `(low, high)` range per job category;
`none` models a key absent from the dict (the caller uses
`.get(category, (30, 60))`). -/
def job_title_scores (cat : String) : Option (ℚ × ℚ) :=
  if cat = "decision_maker" then some (90, 100)
  else if cat = "executive" then some (80, 95)
  else if cat = "management" then some (70, 85)
  else if cat = "technical" then some (60, 80)
  else if cat = "other" then some (30, 60)
  else none

/-- Source `self.high_value_tech`. -/
def high_value_tech : List String :=
  ["react", "node.js", "python", "kubernetes", "docker",
   "aws", "azure", "microservices", "api", "cloud"]

/-- Source `self.size_multipliers`; the caller uses `.get(size, 1.0)`. -/
def size_multipliers (size : String) : Option ℚ :=
  if size = "Enterprise" then some 1.2
  else if size = "Large" then some 1.1
  else if size = "Medium" then some 1.0
  else if size = "Small" then some 0.9
  else if size = "Startup" then some 0.8
  else none

/-- Source `update_weights(new_weights)`: normalize by the sum when it is
positive, otherwise leave the stored weights untouched. -/
def update_weights (w new_weights : ScoringWeights) : ScoringWeights :=
  let total_weight :=
    new_weights.job_title + new_weights.tech_stack + new_weights.buying_intent
  if total_weight > 0 then
    { job_title := new_weights.job_title / total_weight,
      tech_stack := new_weights.tech_stack / total_weight,
      buying_intent := new_weights.buying_intent / total_weight }
  else w

/-- Source `random.uniform(lo, hi)` resolved by the unit draw `t`:
`lo + t * (hi - lo)`. -/
def uniform (lo hi t : ℚ) : ℚ :=
  lo + t * (hi - lo)

/-- The seniority bonus table inside `_score_job_title`
(`.get(seniority, 0)`). -/
def seniority_bonus (seniority : String) : ℚ :=
  if seniority = "Executive" then 10
  else if seniority = "Senior" then 5
  else if seniority = "Mid-level" then 0
  else if seniority = "Junior" then -10
  else 0

/-- Source `_score_job_title(job_category, seniority)` with unit draw `t`. -/
def _score_job_title (job_category seniority : String) (t : ℚ) : ℚ :=
  let base_range := (job_title_scores job_category).getD (30, 60)
  let base_score := uniform base_range.1 base_range.2 t
  max 0 (min 100 (base_score + seniority_bonus seniority))

/-- Hit count of the high-value vocabulary inside the lowercased
tech-stack string (`sum(1 for tech in self.high_value_tech if tech in
tech_lower)`). -/
def tech_matches (tech_stack : String) : Nat :=
  high_value_tech.countP (fun tech => strOccurs tech (lowerStr tech_stack))

/-- Source `_score_tech_stack(tech_stack)` with unit draw `t`. -/
def _score_tech_stack (tech_stack : String) (t : ℚ) : ℚ :=
  let m := tech_matches tech_stack
  if m ≥ 3 then uniform 85 100 t
  else if m ≥ 2 then uniform 70 90 t
  else if m ≥ 1 then uniform 55 75 t
  else uniform 30 60 t

/-- The company-size bonus table inside `_score_buying_intent`
(`.get(size, 0)`). -/
def intent_size_bonus (size : String) : ℚ :=
  if size = "Enterprise" then 15
  else if size = "Large" then 10
  else if size = "Medium" then 5
  else if size = "Small" then 0
  else if size = "Startup" then 10
  else 0

/-- The seniority bonus table inside `_score_buying_intent`
(`.get(seniority, 0)`). -/
def intent_seniority_bonus (seniority : String) : ℚ :=
  if seniority = "Executive" then 15
  else if seniority = "Senior" then 10
  else if seniority = "Mid-level" then 5
  else if seniority = "Junior" then 0
  else 0

/-- Source `_score_buying_intent(lead)`: the two uniform draws
(`random.uniform(0, 25)` and `random.uniform(-10, 10)`) are resolved by
the unit draws `tm` and `tn`. -/
def _score_buying_intent (job_category company_size seniority : String)
    (tm tn : ℚ) : ℚ :=
  let cat_bonus : ℚ :=
    if job_category = "decision_maker" ∨ job_category = "executive" then 20
    else if job_category = "management" then 10
    else 0
  let total_intent :=
    cat_bonus + intent_size_bonus company_size + intent_seniority_bonus seniority +
      uniform 0 25 tm
  let final_intent := total_intent + uniform (-10) 10 tn
  max 0 (min 100 final_intent)

/-- Round-half-to-even of a rational to an integer, the semantics of
Python `round` on an exactly representable value. -/
def rhe (y : ℚ) : ℤ :=
  if y - ⌊y⌋ = 1 / 2 then (if 2 ∣ ⌊y⌋ then ⌊y⌋ else ⌊y⌋ + 1)
  else ⌊y + 1 / 2⌋

/-- Python `round(x, 1)` modelled on rationals. -/
def round1 (x : ℚ) : ℚ :=
  (rhe (10 * x) : ℚ) / 10

/-- Source `_generate_explanation(job_score, tech_score, intent_score,
final_score)`: the three threshold clauses joined with a comma, paired
with the numeric value interpolated into the trailing
`(Score: {final_score})` — the pair abstracts the f-string, keeping the
embedded number exact. -/
def _generate_explanation (job_score tech_score intent_score final_score : ℚ) :
    String × ℚ :=
  let jobClause :=
    if job_score ≥ 85 then "High-value decision maker"
    else if job_score ≥ 70 then "Technical leader/manager"
    else if job_score ≥ 50 then "Technical professional"
    else "Lower relevance role"
  let techClause :=
    if tech_score ≥ 80 then "excellent tech fit"
    else if tech_score ≥ 60 then "good tech alignment"
    else "limited tech relevance"
  let intentClause :=
    if intent_score ≥ 75 then "strong buying signals"
    else if intent_score ≥ 50 then "moderate buying intent"
    else "weak buying signals"
  (String.intercalate ", " [jobClause, techClause, intentClause], final_score)

/-- The random draws consumed by `_score_single_lead`, in source order:
the job-title uniform, the tech-stack uniform, the market factor and the
noise term of the buying-intent score — each as a unit draw. -/
structure ScoreDraws where
  tJob : ℚ
  tTech : ℚ
  tMarket : ℚ
  tNoise : ℚ

/-- All unit draws lie in `[0,1]`, the range `random.random` spans. -/
def ValidDraws (d : ScoreDraws) : Prop :=
  0 ≤ d.tJob ∧ d.tJob ≤ 1 ∧ 0 ≤ d.tTech ∧ d.tTech ≤ 1 ∧
  0 ≤ d.tMarket ∧ d.tMarket ≤ 1 ∧ 0 ≤ d.tNoise ∧ d.tNoise ≤ 1

instance (d : ScoreDraws) : Decidable (ValidDraws d) := by
  unfold ValidDraws; infer_instance

/-- The scored-lead record: `lead.to_dict()` (all enrichment fields)
updated with the five score fields. -/
structure ScoredLead extends EnrichedLead where
  job_title_score : ℚ
  tech_stack_score : ℚ
  buying_intent_score : ℚ
  lead_score : ℚ
  score_explanation : String × ℚ

/-- Source `_score_single_lead(lead)`. -/
def _score_single_lead (w : ScoringWeights) (lead : EnrichedLead)
    (d : ScoreDraws) : ScoredLead :=
  let job_title_score := _score_job_title lead.job_category lead.seniority_level d.tJob
  let tech_stack_score := _score_tech_stack lead.tech_stack d.tTech
  let buying_intent_score :=
    _score_buying_intent lead.job_category lead.company_size lead.seniority_level
      d.tMarket d.tNoise
  let size_multiplier := (size_multipliers lead.company_size).getD 1.0
  let final_score :=
    (job_title_score * w.job_title + tech_stack_score * w.tech_stack +
      buying_intent_score * w.buying_intent) * size_multiplier
  let final_clamped := max 0 (min 100 final_score)
  { toEnrichedLead := lead,
    job_title_score := round1 job_title_score,
    tech_stack_score := round1 tech_stack_score,
    buying_intent_score := round1 buying_intent_score,
    lead_score := round1 final_clamped,
    score_explanation :=
      _generate_explanation job_title_score tech_stack_score buying_intent_score
        final_clamped }

/-- Source `score_leads(df)`: row-wise scoring, order-preserving. -/
def score_leads (w : ScoringWeights) (leads : List (EnrichedLead × ScoreDraws)) :
    List ScoredLead :=
  leads.map (fun ld => _score_single_lead w ld.1 ld.2)

/-- One externally visible engine call: a weight update or a scoring
pass over a batch. -/
inductive EngineEvent where
  | updateW (nw : ScoringWeights)
  | scoreB (leads : List (EnrichedLead × ScoreDraws))

/-- State transition of the engine: `update_weights` rewrites the stored
weights; `score_leads` reads them and emits the scored batch. -/
def engineStep (w : ScoringWeights) : EngineEvent → ScoringWeights × Option (List ScoredLead)
  | .updateW nw => (update_weights w nw, none)
  | .scoreB leads => (w, some (score_leads w leads))

end ScoringEngine

open LeadEnricher ScoringEngine

/-! ## Specification-side definitions and concrete inputs -/

/-- The company-size multiplier table as the spec states it, written from
the spec sentence only (Enterprise 1.2, Large 1.1, Medium 1.0, Small 0.9,
Startup 0.8, unmapped 1.0), for comparison with `size_multipliers`. -/
def sizeMultiplierSpec (size : String) : ℚ :=
  if size = "Enterprise" then 1.2
  else if size = "Large" then 1.1
  else if size = "Medium" then 1.0
  else if size = "Small" then 0.9
  else if size = "Startup" then 0.8
  else 1.0

/-- The final-score formula as the spec states it: weighted sum of the
three sub-scores, times the size multiplier, clamped to [0,100]. -/
def finalScoreClaim (j t i : ℚ) (w : ScoringWeights) (size : String) : ℚ :=
  max 0 (min 100
    ((j * w.job_title + t * w.tech_stack + i * w.buying_intent) *
      sizeMultiplierSpec size))

/-- The LinkedIn slug as the code actually produces it, written as one
pass over the characters: drop everything but letters and whitespace,
then map each surviving space to a hyphen and each letter to lower case
(non-space whitespace survives unchanged). -/
def slugSpec (name : String) : String :=
  ⟨(name.data.filter keepChar).map (fun c => if c = ' ' then '-' else lowChar c)⟩

/-- A concrete enriched lead used to evaluate the scoring pipeline. -/
def cexLead : EnrichedLead :=
  { name := "A", email := "a@b.co", company_domain := "b.co", job_title := "CEO",
    seniority_level := "Mid-level", linkedin_url := "u", tech_stack := "x",
    company_size := "Medium", phone := "p", job_category := "decision_maker" }

/-- Concrete score draws: the tech-stack unit draw 1/100 makes the raw
final score carry two decimal digits. -/
def cexDraws : ScoreDraws := ⟨0, 1 / 100, 0, 0⟩

/-! ## Supporting lemmas -/

lemma char_toNat_ofNat_valid {n : Nat} (h : n.isValidChar) :
    (Char.ofNat n).toNat = n := by
  unfold Char.ofNat
  rw [dif_pos h]
  unfold Char.ofNatAux Char.toNat
  simp [UInt32.toNat, BitVec.toNat_ofNatLt]

lemma lowChar_ne_space {c : Char} (hc : c ≠ ' ') : lowChar c ≠ ' ' := by
  unfold lowChar
  split_ifs with hrange
  · intro hlow
    have hval : (Char.ofNat (c.toNat + 32)).toNat = c.toNat + 32 :=
      char_toNat_ofNat_valid (Or.inl (by omega))
    rw [hlow] at hval
    have hsp : (' ').toNat = 32 := rfl
    omega
  · exact hc

namespace LeadEnricher

lemma enrich_single_err (row : Row) (d : EnrichDraws)
    (h : hasRequired row = false) :
    ∃ e : MissingFieldError, _enrich_single_lead row d = .error e ∧
      (e.field = "name" ∨ e.field = "email" ∨ e.field = "company_domain") ∧
      List.lookup e.field row = none := by
  by_cases hn : List.lookup "name" row = none
  · exact ⟨⟨"name"⟩, by simp [_enrich_single_lead, getField, hn], Or.inl rfl, hn⟩
  obtain ⟨nv, hnv⟩ := Option.ne_none_iff_exists.mp hn
  by_cases he : List.lookup "email" row = none
  · exact ⟨⟨"email"⟩, by simp [_enrich_single_lead, getField, hnv.symm, he],
      Or.inr (Or.inl rfl), he⟩
  obtain ⟨ev, hev⟩ := Option.ne_none_iff_exists.mp he
  have hc : List.lookup "company_domain" row = none := by
    cases hcc : List.lookup "company_domain" row with
    | none => rfl
    | some v =>
      exfalso
      unfold hasRequired at h
      rw [← hnv, ← hev, hcc] at h
      simp at h
  exact ⟨⟨"company_domain"⟩,
    by simp [_enrich_single_lead, getField, hnv.symm, hev.symm, hc],
    Or.inr (Or.inr rfl), hc⟩

lemma enrich_single_ok (row : Row) (d : EnrichDraws)
    (h : hasRequired row = true) :
    ∃ l, _enrich_single_lead row d = .ok l := by
  unfold hasRequired at h
  simp only [Bool.and_eq_true, Option.isSome_iff_exists] at h
  obtain ⟨⟨⟨nv, hnv⟩, ⟨ev, hev⟩⟩, ⟨cv, hcv⟩⟩ := h
  simp [_enrich_single_lead, getField, hnv, hev, hcv]

end LeadEnricher

namespace ScoringEngine

lemma uniform_bounds (lo hi t : ℚ) (hlh : lo ≤ hi) (h0 : 0 ≤ t) (h1 : t ≤ 1) :
    lo ≤ uniform lo hi t ∧ uniform lo hi t ≤ hi := by
  unfold uniform
  constructor
  · nlinarith
  · nlinarith

lemma rhe_bounds {y : ℚ} (h0 : 0 ≤ y) (h1 : y ≤ 1000) :
    (0 : ℤ) ≤ rhe y ∧ rhe y ≤ 1000 := by
  have hfl : (0 : ℤ) ≤ ⌊y⌋ := Int.floor_nonneg.mpr h0
  have hfu : (⌊y⌋ : ℚ) ≤ y := Int.floor_le y
  unfold rhe
  split_ifs with hfrac heven
  · refine ⟨hfl, ?_⟩
    have : (⌊y⌋ : ℚ) ≤ 1000 := le_trans hfu h1
    exact_mod_cast this
  · refine ⟨by omega, ?_⟩
    have hy : y = (⌊y⌋ : ℚ) + 1 / 2 := by linarith
    have : (⌊y⌋ : ℚ) < 1000 := by linarith
    have : ⌊y⌋ < 1000 := by exact_mod_cast this
    omega
  · have h2 : (0 : ℤ) ≤ ⌊y + 1 / 2⌋ := Int.floor_nonneg.mpr (by linarith)
    have h3 : (⌊y + 1 / 2⌋ : ℚ) ≤ y + 1 / 2 := Int.floor_le _
    have h4 : (⌊y + 1 / 2⌋ : ℚ) < 1001 := by linarith
    have h5 : ⌊y + 1 / 2⌋ < 1001 := by exact_mod_cast h4
    exact ⟨h2, by omega⟩

lemma round1_bounds {x : ℚ} (h0 : 0 ≤ x) (h1 : x ≤ 100) :
    0 ≤ round1 x ∧ round1 x ≤ 100 := by
  obtain ⟨a, b⟩ := rhe_bounds (y := 10 * x) (by linarith) (by linarith)
  unfold round1
  constructor
  · exact div_nonneg (by exact_mod_cast a) (by norm_num)
  · rw [div_le_iff₀ (by norm_num)]
    calc ((rhe (10 * x) : ℚ)) ≤ 1000 := by exact_mod_cast b
    _ = 100 * 10 := by norm_num

lemma clamp100_bounds (z : ℚ) : 0 ≤ max 0 (min 100 z) ∧ max 0 (min 100 z) ≤ 100 := by
  constructor
  · exact le_max_left 0 _
  · exact max_le (by norm_num) (min_le_left 100 z)

lemma score_job_title_bounds (cat sen : String) (t : ℚ) :
    0 ≤ _score_job_title cat sen t ∧ _score_job_title cat sen t ≤ 100 := by
  unfold _score_job_title
  exact clamp100_bounds _

lemma score_buying_intent_bounds (cat size sen : String) (tm tn : ℚ) :
    0 ≤ _score_buying_intent cat size sen tm tn ∧
    _score_buying_intent cat size sen tm tn ≤ 100 := by
  unfold _score_buying_intent
  exact clamp100_bounds _

lemma score_tech_stack_bounds (ts : String) {t : ℚ} (h0 : 0 ≤ t) (h1 : t ≤ 1) :
    30 ≤ _score_tech_stack ts t ∧ _score_tech_stack ts t ≤ 100 := by
  unfold _score_tech_stack
  dsimp only
  split_ifs
  · obtain ⟨a, b⟩ := uniform_bounds 85 100 t (by norm_num) h0 h1
    exact ⟨by linarith, by linarith⟩
  · obtain ⟨a, b⟩ := uniform_bounds 70 90 t (by norm_num) h0 h1
    exact ⟨by linarith, by linarith⟩
  · obtain ⟨a, b⟩ := uniform_bounds 55 75 t (by norm_num) h0 h1
    exact ⟨by linarith, by linarith⟩
  · obtain ⟨a, b⟩ := uniform_bounds 30 60 t (by norm_num) h0 h1
    exact ⟨by linarith, by linarith⟩

lemma score_job_title_unmapped {cat : String} (sen : String) (t : ℚ)
    (h : job_title_scores cat = none) :
    _score_job_title cat sen t = _score_job_title "other" sen t := by
  unfold _score_job_title
  rw [h]
  rfl

lemma size_mult_spec_eq (s : String) :
    (size_multipliers s).getD 1.0 = sizeMultiplierSpec s := by
  unfold size_multipliers sizeMultiplierSpec
  split_ifs <;> rfl

lemma cex_job : _score_job_title "decision_maker" "Mid-level" 0 = 90 := by
  have h : job_title_scores "decision_maker" = some (90, 100) := rfl
  have h2 : seniority_bonus "Mid-level" = 0 := rfl
  norm_num [_score_job_title, h, h2, uniform]

lemma cex_tech : _score_tech_stack "x" (1 / 100) = 303 / 10 := by
  have hm : tech_matches "x" = 0 := rfl
  norm_num [_score_tech_stack, hm, uniform]

lemma cex_intent : _score_buying_intent "decision_maker" "Medium" "Mid-level" 0 0 = 20 := by
  have ha : intent_size_bonus "Medium" = 5 := rfl
  have hb : intent_seniority_bonus "Mid-level" = 5 := rfl
  norm_num [_score_buying_intent, ha, hb, uniform, String.reduceEq]

lemma cex_raw_final :
    max 0 (min 100
      ((_score_job_title cexLead.job_category cexLead.seniority_level cexDraws.tJob *
            default_weights.job_title +
          _score_tech_stack cexLead.tech_stack cexDraws.tTech *
            default_weights.tech_stack +
          _score_buying_intent cexLead.job_category cexLead.company_size
              cexLead.seniority_level cexDraws.tMarket cexDraws.tNoise *
            default_weights.buying_intent) *
        (size_multipliers cexLead.company_size).getD 1.0)) = 5109 / 100 := by
  have hsm : size_multipliers "Medium" = some 1.0 := rfl
  rw [show cexLead.job_category = "decision_maker" from rfl,
      show cexLead.seniority_level = "Mid-level" from rfl,
      show cexLead.tech_stack = "x" from rfl,
      show cexLead.company_size = "Medium" from rfl,
      show cexDraws.tJob = 0 from rfl, show cexDraws.tTech = 1 / 100 from rfl,
      show cexDraws.tMarket = 0 from rfl, show cexDraws.tNoise = 0 from rfl,
      cex_job, cex_tech, cex_intent, hsm]
  norm_num [default_weights]

lemma cex_lead_score :
    (_score_single_lead default_weights cexLead cexDraws).lead_score = 511 / 10 := by
  show round1 (max 0 (min 100 _)) = 511 / 10
  rw [cex_raw_final]
  norm_num [round1, rhe, Int.floor_eq_iff]

lemma cex_shown :
    (_score_single_lead default_weights cexLead cexDraws).score_explanation.2 =
      5109 / 100 := by
  show (_generate_explanation _ _ _ (max 0 (min 100 _))).2 = 5109 / 100
  rw [show ∀ a b c f, (_generate_explanation a b c f).2 = f from fun a b c f => rfl]
  exact cex_raw_final

end ScoringEngine

/-! ## Claim theorems -/

/-- C1: for every enriched lead record (arbitrary strings in every field),
every weights state and every valid batch of random draws, the four score
fields produced by scoring all lie in [0,100]; an unmapped job category
falls back to the "other" (30,60) range and an unmapped company size to
the neutral multiplier, so no input errors. -/
theorem C1_scoring_bounded_and_total (lead : EnrichedLead) (w : ScoringWeights)
    (d : ScoreDraws) (hd : ValidDraws d) :
    (0 ≤ (_score_single_lead w lead d).job_title_score ∧
      (_score_single_lead w lead d).job_title_score ≤ 100) ∧
    (0 ≤ (_score_single_lead w lead d).tech_stack_score ∧
      (_score_single_lead w lead d).tech_stack_score ≤ 100) ∧
    (0 ≤ (_score_single_lead w lead d).buying_intent_score ∧
      (_score_single_lead w lead d).buying_intent_score ≤ 100) ∧
    (0 ≤ (_score_single_lead w lead d).lead_score ∧
      (_score_single_lead w lead d).lead_score ≤ 100) ∧
    (job_title_scores lead.job_category = none →
      (_score_single_lead w lead d).job_title_score =
        round1 (_score_job_title "other" lead.seniority_level d.tJob)) ∧
    (size_multipliers lead.company_size = none →
      (_score_single_lead w lead d).lead_score =
        round1 (max 0 (min 100
          (_score_job_title lead.job_category lead.seniority_level d.tJob *
              w.job_title +
            _score_tech_stack lead.tech_stack d.tTech * w.tech_stack +
            _score_buying_intent lead.job_category lead.company_size
                lead.seniority_level d.tMarket d.tNoise * w.buying_intent)))) := by
  obtain ⟨h1, h2, h3, h4, _, _, _, _⟩ := hd
  have hj := score_job_title_bounds lead.job_category lead.seniority_level d.tJob
  have ht := score_tech_stack_bounds lead.tech_stack h3 h4
  have hi := score_buying_intent_bounds lead.job_category lead.company_size
    lead.seniority_level d.tMarket d.tNoise
  have hcl := clamp100_bounds
    ((_score_job_title lead.job_category lead.seniority_level d.tJob * w.job_title +
        _score_tech_stack lead.tech_stack d.tTech * w.tech_stack +
        _score_buying_intent lead.job_category lead.company_size
            lead.seniority_level d.tMarket d.tNoise * w.buying_intent) *
      (size_multipliers lead.company_size).getD 1.0)
  refine ⟨?_, ?_, ?_, ?_, ?_, ?_⟩
  · exact round1_bounds hj.1 hj.2
  · exact round1_bounds (by linarith [ht.1]) ht.2
  · exact round1_bounds hi.1 hi.2
  · exact round1_bounds hcl.1 hcl.2
  · intro h
    show round1 (_score_job_title lead.job_category lead.seniority_level d.tJob) = _
    rw [score_job_title_unmapped lead.seniority_level d.tJob h]
  · intro h
    show round1 (max 0 (min 100 (_ * (size_multipliers lead.company_size).getD 1.0))) = _
    rw [h]
    norm_num [Option.getD]

/-- Witness for C1 at a concrete lead, weights state and draw batch. -/
theorem C1_witness :
    ValidDraws cexDraws ∧
    0 ≤ (_score_single_lead default_weights cexLead cexDraws).lead_score ∧
    (_score_single_lead default_weights cexLead cexDraws).lead_score ≤ 100 := by
  have hv : ValidDraws cexDraws := by norm_num [ValidDraws, cexDraws]
  exact ⟨hv, (C1_scoring_bounded_and_total cexLead default_weights cexDraws hv).2.2.2.1⟩

/-- C2 counterexample: at a concrete lead and draw batch the stored
`lead_score` is 51.1 while the clamped weighted formula of the claim
gives 51.09 — the claim omits the rounding of the stored field. -/
theorem C2_counterexample :
    (_score_single_lead default_weights cexLead cexDraws).lead_score ≠
      finalScoreClaim
        (_score_job_title cexLead.job_category cexLead.seniority_level cexDraws.tJob)
        (_score_tech_stack cexLead.tech_stack cexDraws.tTech)
        (_score_buying_intent cexLead.job_category cexLead.company_size
          cexLead.seniority_level cexDraws.tMarket cexDraws.tNoise)
        default_weights cexLead.company_size := by
  rw [cex_lead_score]
  unfold finalScoreClaim
  rw [← size_mult_spec_eq, cex_raw_final]
  norm_num

/-- C2 (amended): the stored `lead_score` equals the clamped
weighted formula — sub-scores weighted by the three weights, multiplied
by the company-size multiplier table of the spec, clamped to [0,100] — and
then rounded to one decimal place. -/
theorem C2_final_score_formula (lead : EnrichedLead) (w : ScoringWeights)
    (d : ScoreDraws) :
    (_score_single_lead w lead d).lead_score =
      round1 (finalScoreClaim
        (_score_job_title lead.job_category lead.seniority_level d.tJob)
        (_score_tech_stack lead.tech_stack d.tTech)
        (_score_buying_intent lead.job_category lead.company_size
          lead.seniority_level d.tMarket d.tNoise)
        w lead.company_size) := by
  show round1 _ = _
  unfold finalScoreClaim
  rw [size_mult_spec_eq]

/-- C9: scoring only appends the five score fields — every one of the ten
enrichment fields of the scored output is identical to its input value,
for every lead, weights state and draw batch. -/
theorem C9_enrichment_fields_preserved (lead : EnrichedLead) (w : ScoringWeights)
    (d : ScoreDraws) :
    (_score_single_lead w lead d).name = lead.name ∧
    (_score_single_lead w lead d).email = lead.email ∧
    (_score_single_lead w lead d).company_domain = lead.company_domain ∧
    (_score_single_lead w lead d).job_title = lead.job_title ∧
    (_score_single_lead w lead d).seniority_level = lead.seniority_level ∧
    (_score_single_lead w lead d).linkedin_url = lead.linkedin_url ∧
    (_score_single_lead w lead d).tech_stack = lead.tech_stack ∧
    (_score_single_lead w lead d).company_size = lead.company_size ∧
    (_score_single_lead w lead d).phone = lead.phone ∧
    (_score_single_lead w lead d).job_category = lead.job_category :=
  ⟨rfl, rfl, rfl, rfl, rfl, rfl, rfl, rfl, rfl, rfl⟩

/-- C10: the four stored score fields are the one-decimal roundings of
the raw scores, the explanation is generated from the unrounded
sub-scores and carries the unrounded clamped final score, and at a
concrete input the number embedded in the explanation (51.09) differs
from the stored `lead_score` (51.1). -/
theorem C10_explanation_uses_unrounded (lead : EnrichedLead) (w : ScoringWeights)
    (d : ScoreDraws) :
    ((_score_single_lead w lead d).job_title_score =
        round1 (_score_job_title lead.job_category lead.seniority_level d.tJob) ∧
      (_score_single_lead w lead d).tech_stack_score =
        round1 (_score_tech_stack lead.tech_stack d.tTech) ∧
      (_score_single_lead w lead d).buying_intent_score =
        round1 (_score_buying_intent lead.job_category lead.company_size
          lead.seniority_level d.tMarket d.tNoise) ∧
      (_score_single_lead w lead d).score_explanation =
        _generate_explanation
          (_score_job_title lead.job_category lead.seniority_level d.tJob)
          (_score_tech_stack lead.tech_stack d.tTech)
          (_score_buying_intent lead.job_category lead.company_size
            lead.seniority_level d.tMarket d.tNoise)
          (max 0 (min 100
            ((_score_job_title lead.job_category lead.seniority_level d.tJob *
                  w.job_title +
                _score_tech_stack lead.tech_stack d.tTech * w.tech_stack +
                _score_buying_intent lead.job_category lead.company_size
                    lead.seniority_level d.tMarket d.tNoise * w.buying_intent) *
              (size_multipliers lead.company_size).getD 1.0)))) ∧
    (_score_single_lead default_weights cexLead cexDraws).score_explanation.2 ≠
      (_score_single_lead default_weights cexLead cexDraws).lead_score := by
  refine ⟨⟨rfl, rfl, rfl, rfl⟩, ?_⟩
  rw [cex_shown, cex_lead_score]
  norm_num

/-- C6: `update_weights` divides each incoming value by their sum when
the sum is positive (so the stored weights then sum to 1, and 4/3/3
normalizes to 0.4/0.3/0.3), leaves the stored weights unchanged when the
sum is nonpositive, and a scoring call reads the current weights without
modifying them, so an update persists until the next one. -/
theorem C6_update_weights_normalizes (w nw : ScoringWeights) :
    (0 < nw.job_title + nw.tech_stack + nw.buying_intent →
      update_weights w nw =
        { job_title := nw.job_title / (nw.job_title + nw.tech_stack + nw.buying_intent),
          tech_stack := nw.tech_stack / (nw.job_title + nw.tech_stack + nw.buying_intent),
          buying_intent :=
            nw.buying_intent / (nw.job_title + nw.tech_stack + nw.buying_intent) } ∧
      (update_weights w nw).job_title + (update_weights w nw).tech_stack +
        (update_weights w nw).buying_intent = 1) ∧
    (nw.job_title + nw.tech_stack + nw.buying_intent ≤ 0 →
      update_weights w nw = w) ∧
    update_weights w ⟨4, 3, 3⟩ = ⟨0.4, 0.3, 0.3⟩ ∧
    (∀ batch : List (EnrichedLead × ScoreDraws),
      (engineStep w (.scoreB batch)).1 = w ∧
      (engineStep w (.scoreB batch)).2 = some (score_leads w batch)) := by
  refine ⟨?_, ?_, ?_, fun batch => ⟨rfl, rfl⟩⟩
  · intro hpos
    have hne : nw.job_title + nw.tech_stack + nw.buying_intent ≠ 0 := ne_of_gt hpos
    constructor
    · unfold update_weights
      rw [if_pos hpos]
    · unfold update_weights
      rw [if_pos hpos]
      show nw.job_title / _ + nw.tech_stack / _ + nw.buying_intent / _ = 1
      field_simp
  · intro hle
    unfold update_weights
    rw [if_neg (not_lt.mpr hle)]
  · unfold update_weights
    norm_num

/-- Witness for C6: a positive-sum update normalizes, a zero-sum update
is a no-op, a scoring call leaves the weights untouched. -/
theorem C6_witness :
    (0 < (4 : ℚ) + 3 + 3 →
      (update_weights default_weights ⟨4, 3, 3⟩).job_title +
        (update_weights default_weights ⟨4, 3, 3⟩).tech_stack +
        (update_weights default_weights ⟨4, 3, 3⟩).buying_intent = 1) ∧
    update_weights default_weights ⟨0, 0, 0⟩ = default_weights := by
  constructor
  · intro h
    exact (((C6_update_weights_normalizes default_weights ⟨4, 3, 3⟩).1 h).2)
  · exact (C6_update_weights_normalizes default_weights ⟨0, 0, 0⟩).2.1 (by norm_num)

/-- C4: company-size determination returns `Enterprise` deterministically
whenever the lowercased domain contains one of the six well-known
fragments; otherwise the percentile draw is resolved positionally as
Startup below 0.2, Small on [0.2,0.5), Medium on [0.5,0.8), Large on
[0.8,0.95) and Enterprise from 0.95 on — i.e. weights
Startup:0.20, Small:0.30, Medium:0.30, Large:0.15, Enterprise:0.05. -/
theorem C4_company_size_positional (domain : String) (p : ℚ)
    (_hp0 : 0 ≤ p) (_hp1 : p < 1) :
    (strOccursAny ["google", "microsoft", "apple", "amazon", "facebook", "netflix"]
        (lowerStr domain) = true →
      _determine_company_size domain p = "Enterprise") ∧
    (strOccursAny ["google", "microsoft", "apple", "amazon", "facebook", "netflix"]
        (lowerStr domain) = false →
      ((p < 0.2 → _determine_company_size domain p = "Startup") ∧
        (0.2 ≤ p → p < 0.5 → _determine_company_size domain p = "Small") ∧
        (0.5 ≤ p → p < 0.8 → _determine_company_size domain p = "Medium") ∧
        (0.8 ≤ p → p < 0.95 → _determine_company_size domain p = "Large") ∧
        (0.95 ≤ p → _determine_company_size domain p = "Enterprise"))) := by
  unfold _determine_company_size
  constructor
  · intro h
    rw [if_pos h]
  · intro h
    rw [if_neg (by simp [h])]
    refine ⟨?_, ?_, ?_, ?_, ?_⟩
    · intro h1
      rw [if_pos h1]
    · intro h1 h2
      rw [if_neg (not_lt.mpr h1), if_pos h2]
    · intro h1 h2
      rw [if_neg (by linarith), if_neg (not_lt.mpr h1), if_pos h2]
    · intro h1 h2
      rw [if_neg (by linarith), if_neg (by linarith), if_neg (not_lt.mpr h1),
        if_pos h2]
    · intro h1
      rw [if_neg (by linarith), if_neg (by linarith), if_neg (by linarith),
        if_neg (not_lt.mpr h1)]

/-- Witness for C4: `www.Google.com` forces `Enterprise` regardless of
the draw, and a neutral domain at percentile 0.25 lands in `Small`. -/
theorem C4_witness :
    _determine_company_size "www.Google.com" (1 / 4) = "Enterprise" ∧
    _determine_company_size "acme.com" (1 / 4) = "Small" := by
  constructor
  · exact (C4_company_size_positional "www.Google.com" (1 / 4) (by norm_num)
      (by norm_num)).1 (by decide)
  · exact ((C4_company_size_positional "acme.com" (1 / 4) (by norm_num)
      (by norm_num)).2 (by decide)).2.1 (by norm_num) (by norm_num)

/-- C5: job-category classification is the ordered first-match-wins
cascade of case-insensitive substring rules on the email (decision-maker
patterns, then executive, technical, management), then the name-title
rule, and only when nothing matches is the category drawn with the
positional weights technical:0.40, management:0.25, executive:0.15,
decision_maker:0.10, other:0.10. -/
theorem C5_job_category_cascade (email name : String) (p : ℚ)
    (_hp0 : 0 ≤ p) (_hp1 : p < 1) :
    (strOccursAny ["ceo", "founder", "president", "exec"] (lowerStr email) = true →
      _determine_job_category email name p = "decision_maker") ∧
    (strOccursAny ["ceo", "founder", "president", "exec"] (lowerStr email) = false →
      strOccursAny ["cto", "vp", "head", "director"] (lowerStr email) = true →
      _determine_job_category email name p = "executive") ∧
    (strOccursAny ["ceo", "founder", "president", "exec"] (lowerStr email) = false →
      strOccursAny ["cto", "vp", "head", "director"] (lowerStr email) = false →
      strOccursAny ["dev", "engineer", "tech", "code"] (lowerStr email) = true →
      _determine_job_category email name p = "technical") ∧
    (strOccursAny ["ceo", "founder", "president", "exec"] (lowerStr email) = false →
      strOccursAny ["cto", "vp", "head", "director"] (lowerStr email) = false →
      strOccursAny ["dev", "engineer", "tech", "code"] (lowerStr email) = false →
      strOccursAny ["manager", "lead", "principal"] (lowerStr email) = true →
      _determine_job_category email name p = "management") ∧
    (strOccursAny ["ceo", "founder", "president", "exec"] (lowerStr email) = false →
      strOccursAny ["cto", "vp", "head", "director"] (lowerStr email) = false →
      strOccursAny ["dev", "engineer", "tech", "code"] (lowerStr email) = false →
      strOccursAny ["manager", "lead", "principal"] (lowerStr email) = false →
      strOccursAny ["dr", "prof", "phd"] (lowerStr name) = true →
      _determine_job_category email name p = "technical") ∧
    (strOccursAny ["ceo", "founder", "president", "exec"] (lowerStr email) = false →
      strOccursAny ["cto", "vp", "head", "director"] (lowerStr email) = false →
      strOccursAny ["dev", "engineer", "tech", "code"] (lowerStr email) = false →
      strOccursAny ["manager", "lead", "principal"] (lowerStr email) = false →
      strOccursAny ["dr", "prof", "phd"] (lowerStr name) = false →
      ((p < 0.4 → _determine_job_category email name p = "technical") ∧
        (0.4 ≤ p → p < 0.65 → _determine_job_category email name p = "management") ∧
        (0.65 ≤ p → p < 0.8 → _determine_job_category email name p = "executive") ∧
        (0.8 ≤ p → p < 0.9 →
          _determine_job_category email name p = "decision_maker") ∧
        (0.9 ≤ p → _determine_job_category email name p = "other"))) := by
  unfold _determine_job_category
  refine ⟨?_, ?_, ?_, ?_, ?_, ?_⟩
  · intro h1
    rw [if_pos h1]
  · intro h1 h2
    rw [if_neg (by simp [h1]), if_pos h2]
  · intro h1 h2 h3
    rw [if_neg (by simp [h1]), if_neg (by simp [h2]), if_pos h3]
  · intro h1 h2 h3 h4
    rw [if_neg (by simp [h1]), if_neg (by simp [h2]), if_neg (by simp [h3]),
      if_pos h4]
  · intro h1 h2 h3 h4 h5
    rw [if_neg (by simp [h1]), if_neg (by simp [h2]), if_neg (by simp [h3]),
      if_neg (by simp [h4]), if_pos h5]
  · intro h1 h2 h3 h4 h5
    rw [if_neg (by simp [h1]), if_neg (by simp [h2]), if_neg (by simp [h3]),
      if_neg (by simp [h4]), if_neg (by simp [h5])]
    refine ⟨?_, ?_, ?_, ?_, ?_⟩
    · intro g1
      rw [if_pos g1]
    · intro g1 g2
      rw [if_neg (not_lt.mpr g1), if_pos g2]
    · intro g1 g2
      rw [if_neg (by linarith), if_neg (not_lt.mpr g1), if_pos g2]
    · intro g1 g2
      rw [if_neg (by linarith), if_neg (by linarith), if_neg (not_lt.mpr g1),
        if_pos g2]
    · intro g1
      rw [if_neg (by linarith), if_neg (by linarith), if_neg (by linarith),
        if_neg (not_lt.mpr g1)]

/-- Witness for C5: a `ceo` email classifies as decision maker no matter
the name, a `dev` email as technical, a pattern-free email with a
doctoral name as technical, and a fully pattern-free input at percentile
0.5 draws `management`. -/
theorem C5_witness :
    _determine_job_category "ceo@acme.com" "Dr. Jane Doe" (1 / 2) = "decision_maker" ∧
    _determine_job_category "jane.dev@acme.com" "Jane" (1 / 2) = "technical" ∧
    _determine_job_category "jane@acme.com" "Dr. Jane Doe" (1 / 2) = "technical" ∧
    _determine_job_category "jane@acme.com" "Jane Doe" (1 / 2) = "management" := by
  refine ⟨?_, ?_, ?_, ?_⟩
  · exact (C5_job_category_cascade "ceo@acme.com" "Dr. Jane Doe" (1 / 2)
      (by norm_num) (by norm_num)).1 (by decide)
  · exact (C5_job_category_cascade "jane.dev@acme.com" "Jane" (1 / 2)
      (by norm_num) (by norm_num)).2.2.1 (by decide) (by decide) (by decide)
  · exact (C5_job_category_cascade "jane@acme.com" "Dr. Jane Doe" (1 / 2)
      (by norm_num) (by norm_num)).2.2.2.2.1 (by decide) (by decide) (by decide)
      (by decide) (by decide)
  · exact ((C5_job_category_cascade "jane@acme.com" "Jane Doe" (1 / 2)
      (by norm_num) (by norm_num)).2.2.2.2.2 (by decide) (by decide) (by decide)
      (by decide) (by decide)).2.1 (by norm_num) (by norm_num)

/-- C7: the tech-stack sub-score is drawn from the range selected by the
number of case-insensitive vocabulary hits — [85,100] for three or more,
[70,90] for exactly two, [55,75] for one, [30,60] for none — and
"Go, Kubernetes, Docker" has exactly two hits (go is not in the
vocabulary), so its score lies in [70,90]. -/
theorem C7_tech_stack_ranges (ts : String) (t : ℚ) (h0 : 0 ≤ t) (h1 : t ≤ 1) :
    (3 ≤ tech_matches ts →
      85 ≤ _score_tech_stack ts t ∧ _score_tech_stack ts t ≤ 100) ∧
    (tech_matches ts = 2 →
      70 ≤ _score_tech_stack ts t ∧ _score_tech_stack ts t ≤ 90) ∧
    (tech_matches ts = 1 →
      55 ≤ _score_tech_stack ts t ∧ _score_tech_stack ts t ≤ 75) ∧
    (tech_matches ts = 0 →
      30 ≤ _score_tech_stack ts t ∧ _score_tech_stack ts t ≤ 60) ∧
    tech_matches "Go, Kubernetes, Docker" = 2 := by
  unfold _score_tech_stack
  dsimp only
  refine ⟨?_, ?_, ?_, ?_, rfl⟩
  · intro hm
    rw [if_pos hm]
    exact uniform_bounds 85 100 t (by norm_num) h0 h1
  · intro hm
    rw [if_neg (by omega), if_pos (by omega)]
    exact uniform_bounds 70 90 t (by norm_num) h0 h1
  · intro hm
    rw [if_neg (by omega), if_neg (by omega), if_pos (by omega)]
    exact uniform_bounds 55 75 t (by norm_num) h0 h1
  · intro hm
    rw [if_neg (by omega), if_neg (by omega), if_neg (by omega)]
    exact uniform_bounds 30 60 t (by norm_num) h0 h1

/-- Witness for C7: the catalog entry "Go, Kubernetes, Docker" at a
concrete draw scores inside [70,90]. -/
theorem C7_witness :
    70 ≤ _score_tech_stack "Go, Kubernetes, Docker" (1 / 2) ∧
    _score_tech_stack "Go, Kubernetes, Docker" (1 / 2) ≤ 90 :=
  (C7_tech_stack_ranges "Go, Kubernetes, Docker" (1 / 2) (by norm_num)
    (by norm_num)).2.1 rfl

/-- C8 counterexample: the claim predicts that whitespace runs collapse
to a single hyphen, but on the name "John  Smith" (two spaces) the code
produces two hyphens, and a tab inside a name survives untouched instead
of becoming a hyphen. -/
theorem C8_counterexample :
    _generate_linkedin_url "John  Smith" = "https://linkedin.com/in/john--smith" ∧
    _generate_linkedin_url "John  Smith" ≠ "https://linkedin.com/in/john-smith" ∧
    _generate_linkedin_url "A\tB" = "https://linkedin.com/in/a\tb" ∧
    _generate_linkedin_url "A\tB" ≠ "https://linkedin.com/in/a-b" := by
  refine ⟨by decide, by decide, by decide, by decide⟩

/-- C8 (amended): the LinkedIn URL is the fixed base followed by the slug
obtained by deleting every character that is neither a letter nor
whitespace, lowercasing, and replacing each space character — not each
whitespace run — by one hyphen, with non-space whitespace kept as is. -/
theorem C8_linkedin_url_slug (name : String) :
    _generate_linkedin_url name = "https://linkedin.com/in/" ++ slugSpec name := by
  unfold _generate_linkedin_url slugSpec
  dsimp only
  rw [List.map_map]
  congr 2
  apply List.map_congr_left
  intro c _
  show (if lowChar c = ' ' then '-' else lowChar c) =
    (if c = ' ' then '-' else lowChar c)
  by_cases hc : c = ' '
  · subst hc
    rfl
  · rw [if_neg hc, if_neg (lowChar_ne_space hc)]

/-- C3: a batch containing a row that misses a required field makes
`enrich_leads` return a `MissingFieldError` naming a field that is
indeed missing from some row of the batch — the whole call aborts with
the error instead of skipping the row — and in particular a row with
name and email but no `company_domain` fails the whole batch with
`MissingFieldError("company_domain")`. -/
theorem C3_missing_field_aborts_batch :
    (∀ rows : List (Row × EnrichDraws),
      (∃ rd ∈ rows, hasRequired rd.1 = false) →
      ∃ e : MissingFieldError, enrich_leads rows = .error e ∧
        (e.field = "name" ∨ e.field = "email" ∨ e.field = "company_domain") ∧
        ∃ rd ∈ rows, List.lookup e.field rd.1 = none) ∧
    (∀ (nm em : String) (d : EnrichDraws) (rest : List (Row × EnrichDraws)),
      _enrich_single_lead [("name", nm), ("email", em)] d =
        .error ⟨"company_domain"⟩ ∧
      enrich_leads (([("name", nm), ("email", em)], d) :: rest) =
        .error ⟨"company_domain"⟩) := by
  constructor
  · intro rows
    induction rows with
    | nil =>
      rintro ⟨rd, hmem, _⟩
      exact absurd hmem (List.not_mem_nil rd)
    | cons head rest ih =>
      rintro ⟨rd, hmem, hbad⟩
      obtain ⟨row, dr⟩ := head
      by_cases hr : hasRequired row
      · have hok := enrich_single_ok row dr hr
        obtain ⟨l, hl⟩ := hok
        have hmem' : rd ∈ rest := by
          rcases List.mem_cons.mp hmem with heq | hmem'
          · exfalso
            rw [heq] at hbad
            simp only at hbad
            rw [hbad] at hr
            exact Bool.false_ne_true hr
          · exact hmem'
        obtain ⟨e, herr, hfld, rd', hmem'', hnone⟩ := ih ⟨rd, hmem', hbad⟩
        refine ⟨e, ?_, hfld, rd', List.mem_cons_of_mem _ hmem'', hnone⟩
        simp [enrich_leads, hl, herr]
      · obtain ⟨e, herr, hfld, hnone⟩ :=
          enrich_single_err row dr (Bool.not_eq_true _ ▸ Bool.of_not_eq_true hr)
        refine ⟨e, ?_, hfld, ⟨row, dr⟩, List.mem_cons_self _ _, hnone⟩
        simp [enrich_leads, herr]
  · intro nm em d rest
    have hn : List.lookup "name" [("name", nm), ("email", em)] = some nm := by
      simp [List.lookup, show (("name" : String) == "name") = true from rfl]
    have he : List.lookup "email" [("name", nm), ("email", em)] = some em := by
      simp [List.lookup, show (("email" : String) == "name") = false from rfl,
        show (("email" : String) == "email") = true from rfl]
    have hc : List.lookup "company_domain" [("name", nm), ("email", em)] = none := by
      simp [List.lookup,
        show (("company_domain" : String) == "name") = false from rfl,
        show (("company_domain" : String) == "email") = false from rfl]
    have hrow : _enrich_single_lead [("name", nm), ("email", em)] d =
        .error ⟨"company_domain"⟩ := by
      simp [_enrich_single_lead, getField, hn, he, hc]
    exact ⟨hrow, by simp [enrich_leads, hrow]⟩

/-- Witness for C3 at a concrete batch: a good row followed by a row
missing `company_domain` makes the whole call fail. -/
theorem C3_witness :
    (∃ rd ∈ [(([("name", "Ann"), ("email", "a@b.co")] : Row),
        (⟨0, 0, 0, 0, 0, 0, 0, 0⟩ : EnrichDraws))],
      hasRequired rd.1 = false) ∧
    ∃ e : MissingFieldError,
      enrich_leads [(([("name", "Ann"), ("email", "a@b.co")] : Row),
        (⟨0, 0, 0, 0, 0, 0, 0, 0⟩ : EnrichDraws))] = .error e ∧
      (e.field = "name" ∨ e.field = "email" ∨ e.field = "company_domain") ∧
      ∃ rd ∈ [(([("name", "Ann"), ("email", "a@b.co")] : Row),
        (⟨0, 0, 0, 0, 0, 0, 0, 0⟩ : EnrichDraws))],
        List.lookup e.field rd.1 = none := by
  have hbad : (∃ rd ∈ [(([("name", "Ann"), ("email", "a@b.co")] : Row),
      (⟨0, 0, 0, 0, 0, 0, 0, 0⟩ : EnrichDraws))], hasRequired rd.1 = false) :=
    ⟨_, List.mem_cons_self _ _, by decide⟩
  exact ⟨hbad, C3_missing_field_aborts_batch.1 _ hbad⟩

end B2BLead
